import Mathlib

/-!
Verification of the eto-uje-istoria/Blockchain repository: a shallow embedding
of `Block.py`, `BlockchainModel.py`, `CryptoUtils.py`, `ArbiterAPI.py` and the
`main.py` scenario, with theorems about the specified properties.

Modeling conventions, stated once here and referenced by the doc comments:

* Library primitives that the repository merely calls are modeled as ideal
  deterministic functions: `hashlib.sha256(...).hexdigest()` becomes the
  injective tag `sha256hex`; a PKCS#1 v1.5 RSA signature (pycryptodome
  `pkcs1_15`) over a digest under a keypair is the value `RawBytes.sig digest
  key`; the `bytes`/hex codec (`bytes.hex`, `bytes.fromhex`) is an injective
  encoding `bytesHex` with partial inverse `bytesFromHex` (strings outside its
  image model malformed encodings on which `bytes.fromhex` raises
  `ValueError`); HTTP transport is modeled by passing the `requests` response
  as an explicit argument.
* RSA keys are opaque handles: `PyKey.rsa kid hasPrivate` is a well-formed key
  of keypair `kid` (with or without the private half); `PyKey.badKey` is a
  malformed/unusable key object, on which the pycryptodome primitives raise
  `TypeError` (their documented behavior), caught by the repository's
  `except (ValueError, TypeError)` handlers.
* Python exceptions become the `PyErr` error type threaded through `Except`;
  file I/O (`save_chain`, `save_block`) is outside the model — in the source it
  never modifies the in-memory chain, which is the only fact the claims use.
* Every piece of repository logic (control flow, check order, message strings,
  call arities, attribute sets) is translated statement by statement from the
  Python source.
-/

set_option maxHeartbeats 1000000
set_option maxRecDepth 100000

deriving instance DecidableEq for Except

/-- A Python `dict[str, str]` in insertion order (an ordered string-to-string
mapping, as used for block payloads). -/
abbrev PyDict := List (String × String)

/-- The Python exceptions that the modeled code can raise. -/
inductive PyErr where
  | valueError (msg : String)
  | typeError (msg : String)
  | attributeError (msg : String)
  | keyError (key : String)
  | indexError (msg : String)
deriving DecidableEq

/-- Ideal model of `hashlib.sha256(s.encode()).hexdigest()`: an injective
deterministic digest function. No claim proved here relies on any property of
SHA-256 beyond determinism, so an injective tagging stands in for the real
compression function. -/
def sha256hex (s : String) : String := "sha256:" ++ s

/-- `", ".join(parts)`, the separator used by both `json.dumps` and the Python
`str()` form of a dict. -/
def joinComma : List String → String
  | [] => ""
  | [s] => s
  | s :: rest => s ++ ", " ++ joinComma rest

/-- One `"key": "value"` entry of `json.dumps` output. -/
def jsonKV (kv : String × String) : String :=
  "\"" ++ kv.1 ++ "\": \"" ++ kv.2 ++ "\""

/-- `json.dumps(data)` for a `dict[str, str]` in insertion order with the
default separators, e.g. `{"name": "Jack", "city": "New-York"}` (braces written
with escapes). Keys and values in this repository need no JSON escaping. -/
def jsonDumps (d : PyDict) : String :=
  "\x7b" ++ joinComma (d.map jsonKV) ++ "\x7d"

/-- One `'key': 'value'` entry of Python `str(dict)` output (apostrophes
written with escapes). -/
def pyKV (kv : String × String) : String :=
  "\x27" ++ kv.1 ++ "\x27: \x27" ++ kv.2 ++ "\x27"

/-- Python `str(data)` for a `dict[str, str]`, as produced by the f-string in
`Block.calculate_hash`, e.g. `{'name': 'Jack', 'city': 'New-York'}`. -/
def pyStrDict (d : PyDict) : String :=
  "\x7b" ++ joinComma (d.map pyKV) ++ "\x7d"

/-- Ideal model of raw byte strings as far as the repository distinguishes
them: either the unique PKCS#1 v1.5 signature of `digest` under keypair `key`,
or bytes that are not a valid signature of anything. -/
inductive RawBytes where
  | sig (digest : String) (key : Nat)
  | junk (payload : String)
deriving DecidableEq

/-- Character-level injective encoding of `RawBytes` (the model of
`bytes.hex()`): the keypair number in unary followed by the digest, or a tagged
junk payload. -/
def encB : RawBytes → List Char
  | .sig d k => 'S' :: (List.replicate k 'I' ++ (':' :: d.data))
  | .junk s => 'J' :: s.data

/-- Decoder for the signature arm of `encB`: consume the unary key count up to
the `':'` delimiter, the rest is the digest. -/
def decSig : List Char → Nat → Option RawBytes
  | [], _ => none
  | c :: rest, k =>
    if c = 'I' then decSig rest (k + 1)
    else if c = ':' then some (.sig (String.mk rest) k)
    else none

/-- Decoder for `encB`; strings outside the image decode to `none`, modeling a
malformed hex encoding on which `bytes.fromhex` raises `ValueError`. -/
def decB : List Char → Option RawBytes
  | [] => none
  | c :: rest =>
    if c = 'S' then decSig rest 0
    else if c = 'J' then some (.junk (String.mk rest))
    else none

/-- Model of `some_bytes.hex()`. -/
def bytesHex (b : RawBytes) : String := String.mk (encB b)

/-- Model of `bytes.fromhex(s)`; `none` models the `ValueError` raised on a
malformed encoding. -/
def bytesFromHex (s : String) : Option RawBytes := decB s.data

/-- Ideal PKCS#1 v1.5 signing of a hex digest under keypair `kid`
(pycryptodome `pkcs1_15.new(key).sign(h)`): produces the unique valid
signature bytes. -/
def pkcsSign (digestHex : String) (kid : Nat) : RawBytes := .sig digestHex kid

/-- Ideal PKCS#1 v1.5 verification (pycryptodome `pkcs1_15.new(key).verify`):
succeeds exactly on the unique valid signature of that digest under that
keypair. The library raises `ValueError` on failure; the repository wraps that,
so here the primitive just reports validity. -/
def pkcsVerify (digestHex : String) (sigBytes : RawBytes) (kid : Nat) : Bool :=
  decide (sigBytes = RawBytes.sig digestHex kid)

/-- An RSA key object as the repository sees it: a well-formed key of keypair
`kid` that does or does not carry the private half, or a malformed/unusable
key object on which the pycryptodome primitives raise `TypeError`. -/
inductive PyKey where
  | rsa (kid : Nat) (hasPrivate : Bool)
  | badKey
deriving DecidableEq

/-- Message of the `ValueError` that `CryptoUtils.sign_data` re-raises. -/
def signDataErrMsg : String := "Ошибка при сериализации данных или типе ключа."

/-- Message of the `ValueError` that `CryptoUtils.sign_hash` re-raises. -/
def signHashErrMsg : String := "Ошибка при обработке хэша или типе ключа."

/-- Message of the `ValueError` that `CryptoUtils.verify_data_signature`
re-raises. -/
def verifyDataErrMsg : String := "Ошибка при проверке подписи данных или типе ключа."

/-- Message of the `ValueError` that `CryptoUtils.verify_hash_signature`
re-raises. -/
def verifyHashErrMsg : String := "Ошибка при проверке подписи хэша или типе ключа."

/-- The `TypeError` Python raises for the call `CryptoUtils.sign_hash(self.hash,
private_key)` in `Block.__init__`: `sign_hash` is declared in `CryptoUtils.py`
with the single parameter `hash_`, so the two-argument call fails before the
body of `sign_hash` runs. -/
def arityErrMsg : String := "sign_hash() takes 1 positional argument but 2 were given"

/-- Message of the `AttributeError` raised when `BlockchainModel.is_chain_valid`
reads `current_block.timestamp`: `Block.__init__` sets exactly `index`, `data`,
`prev_hash`, `data_signature`, `hash` and `hash_signature`, and no code in the
repository ever assigns a `timestamp` attribute on a block. -/
def timestampAttrMsg : String := "\x27Block\x27 object has no attribute \x27timestamp\x27"

/-- Model of `CryptoUtils.sign_data(data, private_key)`:
`SHA256.new(json.dumps(data).encode())`, then `pkcs1_15.new(private_key)
.sign(...)`, returned as a hex string.  `json.dumps` always succeeds on a
`dict[str, str]`; signing with a public-only or malformed key raises
`TypeError`, which the `except (ValueError, TypeError)` handler re-raises as a
`ValueError` with a fixed message. -/
def CryptoUtils.sign_data (data : PyDict) (private_key : PyKey) : Except PyErr String :=
  match private_key with
  | .rsa kid true => .ok (bytesHex (pkcsSign (sha256hex (jsonDumps data)) kid))
  | .rsa _ false => .error (.valueError signDataErrMsg)
  | .badKey => .error (.valueError signDataErrMsg)

/-- Model of `CryptoUtils.verify_data_signature(data, signature, public_key)`:
recompute the digest of `json.dumps(data)`, decode the hex signature, verify.
The source returns `True` on success; every failure inside the `try` block —
cryptographic mismatch (`ValueError` from `verify`), malformed hex encoding
(`ValueError` from `bytes.fromhex`), or an unusable key (`TypeError`) — is
caught and re-raised as a `ValueError` with one fixed message.  The function
never returns `False`. -/
def CryptoUtils.verify_data_signature (data : PyDict) (signature : String)
    (public_key : PyKey) : Except PyErr Bool :=
  match bytesFromHex signature with
  | none => .error (.valueError verifyDataErrMsg)
  | some sigBytes =>
    match public_key with
    | .rsa kid _ =>
      if pkcsVerify (sha256hex (jsonDumps data)) sigBytes kid then .ok true
      else .error (.valueError verifyDataErrMsg)
    | .badKey => .error (.valueError verifyDataErrMsg)

/-- Model of `binascii.unhexlify(hash_)` as used by `verify_hash_signature`:
digest strings produced by this model are treated as valid byte encodings, so
decoding is an injective re-tagging. -/
def unhexlify (s : String) : String := "unhex:" ++ s

/-- Model of `CryptoUtils.verify_hash_signature(hash_, signature, timestamp,
remote_public_key)`: the token is `timestamp.encode('utf-8') +
binascii.unhexlify(hash_)`, hashed with SHA-256 and verified against the
signature under the remote key.  As in `verify_data_signature`, the source
returns `True` on success and re-raises every caught failure as a `ValueError`
with one fixed message; it never returns `False`. -/
def CryptoUtils.verify_hash_signature (hash_ : String) (signature : String)
    (timestamp : String) (remote_public_key : PyKey) : Except PyErr Bool :=
  let token := timestamp ++ unhexlify hash_
  match bytesFromHex signature with
  | none => .error (.valueError verifyHashErrMsg)
  | some sigBytes =>
    match remote_public_key with
    | .rsa kid _ =>
      if pkcsVerify (sha256hex token) sigBytes kid then .ok true
      else .error (.valueError verifyHashErrMsg)
    | .badKey => .error (.valueError verifyHashErrMsg)

/-- The authority's `timeStampToken` JSON object: `{signature, ts}`. -/
structure TimeStampToken where
  signature : String
  ts : String
deriving DecidableEq

/-- The `requests` response from the arbiter, as far as `ArbiterAPI` reads it:
`status_code`, `text`, and the parsed JSON body fields `status`,
`statusString`, `timeStampToken` (each `none` when absent). -/
structure HttpResponse where
  status_code : Nat
  text : String
  status : Option Int
  statusString : Option String
  timeStampToken : Option TimeStampToken
deriving DecidableEq

/-- The `ValueError` message for a non-200 HTTP status in
`ArbiterAPI.get_signature`. -/
def httpFailMsg (r : HttpResponse) : String :=
  "Ошибка при получении подписи: " ++ toString r.status_code ++ ", " ++ r.text

/-- The `ValueError` message for a non-zero arbiter status in
`ArbiterAPI.get_signature`; `result.get('statusString', 'Неизвестная ошибка')`. -/
def protoFailMsg (r : HttpResponse) : String :=
  "Арбитр вернул ошибку: " ++ r.statusString.getD "Неизвестная ошибка"

/-- Model of `ArbiterAPI.get_signature(digest)`.  The HTTP exchange is modeled
by passing the response.  The source raises `ValueError` when
`response.status_code != 200` (any other code, 2xx included), raises
`ValueError` with the `statusString` when `result.get("status") != 0` (a
missing status also fails this test), and otherwise returns
`result["timeStampToken"]` — a missing token there raises `KeyError`. -/
def ArbiterAPI.get_signature (response : HttpResponse) : Except PyErr TimeStampToken :=
  if response.status_code ≠ 200 then
    .error (.valueError (httpFailMsg response))
  else if response.status ≠ some 0 then
    .error (.valueError (protoFailMsg response))
  else
    match response.timeStampToken with
    | some token => .ok token
    | none => .error (.keyError "timeStampToken")

/-- Model of `CryptoUtils.sign_hash(hash_)` as declared (one parameter): calls
`ArbiterAPI.get_signature` (response passed explicitly), stores
`response['ts']` into the class attribute `CryptoUtils.TIMESTAMP` and returns
`response['signature']`.  A `ValueError` from `get_signature` is caught and
re-raised with a fixed message; other exceptions propagate.  Returns the
signature together with the new `TIMESTAMP` value. -/
def CryptoUtils.sign_hash (response : HttpResponse) (hash_ : String) :
    Except PyErr (String × String) :=
  let _digest := hash_
  match ArbiterAPI.get_signature response with
  | .ok token => .ok (token.signature, token.ts)
  | .error (.valueError _) => .error (.valueError signHashErrMsg)
  | .error e => .error e

/-- A block, with exactly the attributes assigned by `Block.__init__`. -/
structure Block where
  index : Nat
  data : PyDict
  prev_hash : String
  data_signature : String
  hash : String
  hash_signature : String
deriving DecidableEq

/-- The f-string `f"{self.index}{self.data}{self.prev_hash}{self.data_signature}"`
from `Block.calculate_hash`. -/
def blockContent (index : Nat) (data : PyDict) (prev_hash : String)
    (data_signature : String) : String :=
  toString index ++ pyStrDict data ++ prev_hash ++ data_signature

/-- Model of `Block.calculate_hash`: SHA-256 hex digest of the concatenated
index, `str()` form of the data, previous hash and data signature. -/
def Block.calculate_hash (b : Block) : String :=
  sha256hex (blockContent b.index b.data b.prev_hash b.data_signature)

/-- Python attribute lookup `block.timestamp`.  `Block.__init__` sets exactly
the six attributes of `Block`, and no code in the repository assigns a
`timestamp` attribute, so this lookup raises `AttributeError`. -/
def Block.timestamp (_ : Block) : Except PyErr String :=
  .error (.attributeError timestampAttrMsg)

/-- Model of `Block.__init__(index, data, prev_hash, private_key)`: assigns
`data_signature = CryptoUtils.sign_data(data, private_key)` (a failure there
propagates), computes `hash = self.calculate_hash()`, and then executes
`self.hash_signature = CryptoUtils.sign_hash(self.hash, private_key)` — a
two-argument call to the one-parameter `sign_hash`, which raises `TypeError`
before any signing happens.  Construction therefore never completes in this
version of the code. -/
def Block.init (index : Nat) (data : PyDict) (prev_hash : String)
    (private_key : PyKey) : Except PyErr Block :=
  match CryptoUtils.sign_data data private_key with
  | .error e => .error e
  | .ok data_signature =>
    let _hash := sha256hex (blockContent index data prev_hash data_signature)
    .error (.typeError arityErrMsg)

/-- The ledger: `storage_file` and the in-memory list of blocks, as in
`BlockchainModel.__init__`. -/
structure BlockchainModel where
  storage_file : String := "data/blockchains/blockchain.json"
  chain : List Block
deriving DecidableEq

/-- Model of `BlockchainModel.save_chain`: serializes the chain to
`storage_file`.  Disk I/O is outside the model; in the source `save_chain`
never modifies the in-memory chain, which is the only fact the claims use, so
it is modeled as succeeding with the state unchanged. -/
def BlockchainModel.save_chain (bm : BlockchainModel) :
    Except PyErr Unit × BlockchainModel :=
  (.ok (), bm)

/-- The genesis payload `{"message": "Genesis Block"}` from
`create_genesis_block`. -/
def genesisData : PyDict := [("message", "Genesis Block")]

/-- Model of `BlockchainModel.create_genesis_block(private_key)`: build
`Block(index=0, data={"message": "Genesis Block"}, prev_hash="0", ...)`,
append it, save.  A construction failure propagates before the append. -/
def BlockchainModel.create_genesis_block (bm : BlockchainModel)
    (private_key : PyKey) : Except PyErr Unit × BlockchainModel :=
  match Block.init 0 genesisData "0" private_key with
  | .error e => (.error e, bm)
  | .ok genesis_block =>
    BlockchainModel.save_chain { bm with chain := bm.chain ++ [genesis_block] }

/-- Model of `BlockchainModel.add_block(data, private_key)`:
`prev_block = self.chain[-1]` (`IndexError` on an empty chain), build
`Block(len(self.chain), data, prev_block.hash, private_key)`, append, save.
A construction failure propagates before the append. -/
def BlockchainModel.add_block (bm : BlockchainModel) (data : PyDict)
    (private_key : PyKey) : Except PyErr Unit × BlockchainModel :=
  match bm.chain.getLast? with
  | none => (.error (.indexError "list index out of range"), bm)
  | some prev_block =>
    match Block.init bm.chain.length data prev_block.hash private_key with
    | .error e => (.error e, bm)
    | .ok new_block =>
      BlockchainModel.save_chain { bm with chain := bm.chain ++ [new_block] }

/-- One iteration of the `is_chain_valid` loop body for
`prev_block = chain[i-1]`, `current_block = chain[i]`, in source order:
1. hash recomputation (`return False` on mismatch);
2. `verify_data_signature` (an exception from it propagates);
3. read `current_block.timestamp` (an attribute no block has) and call
   `verify_hash_signature`;
4. link to the predecessor.
`.ok false` stops the walk with result `False`; `.ok true` continues. -/
def validStep (prev_block current_block : Block)
    (local_public_key remote_public_key : PyKey) : Except PyErr Bool := do
  if current_block.hash ≠ current_block.calculate_hash then
    return false
  let dataOk ← CryptoUtils.verify_data_signature current_block.data
    current_block.data_signature local_public_key
  if !dataOk then
    return false
  let ts ← current_block.timestamp
  let hashOk ← CryptoUtils.verify_hash_signature current_block.hash
    current_block.hash_signature ts remote_public_key
  if !hashOk then
    return false
  if current_block.prev_hash ≠ prev_block.hash then
    return false
  return true

/-- The walk `for i in range(1, len(chain))` of `is_chain_valid`, carried out
pairwise: the first argument is `chain[i-1]`, the list holds `chain[i..]`. -/
def chainWalk : Block → List Block → PyKey → PyKey → Except PyErr Bool
  | _, [], _, _ => .ok true
  | prev, c :: rest, lk, rk =>
    match validStep prev c lk rk with
    | .error e => .error e
    | .ok false => .ok false
    | .ok true => chainWalk c rest lk rk

/-- Model of `BlockchainModel.is_chain_valid(local_public_key,
remote_public_key)`: the loop over `range(1, len(self.chain))` never runs for
a chain of length 0 or 1, so those return `True` at once. -/
def BlockchainModel.is_chain_valid (bm : BlockchainModel)
    (local_public_key remote_public_key : PyKey) : Except PyErr Bool :=
  match bm.chain with
  | [] => .ok true
  | b0 :: rest => chainWalk b0 rest local_public_key remote_public_key

/-- Turn the `(result, state)` pair of a ledger operation into the view of
`main.py`, where an exception aborts the remaining statements. -/
def runOp (r : Except PyErr Unit × BlockchainModel) : Except PyErr BlockchainModel :=
  match r with
  | (.ok _, bm) => .ok bm
  | (.error e, _) => .error e

/-- The `main.py` scenario up to the first `is_chain_valid` call: a fresh
empty ledger, `create_genesis_block`, then the three literal payloads. -/
def scenarioA (private_key : PyKey) : Except PyErr BlockchainModel := do
  let bm : BlockchainModel := { chain := [] }
  let bm ← runOp (bm.create_genesis_block private_key)
  let bm ← runOp (bm.add_block [("name", "Jack"), ("city", "New-York")] private_key)
  let bm ← runOp (bm.add_block [("name", "Alex"), ("city", "Moscow")] private_key)
  let bm ← runOp (bm.add_block [("name", "Sue"), ("city", "Boston")] private_key)
  return bm

/-- Whether `signature` decodes to the valid PKCS#1 v1.5 signature of the
digest of `json.dumps(data)` under `public_key`: the cryptographic-match
predicate that `verify_data_signature` checks. -/
def dataSigMatches (data : PyDict) (signature : String) (public_key : PyKey) : Bool :=
  match public_key, bytesFromHex signature with
  | .rsa kid _, some sigBytes => pkcsVerify (sha256hex (jsonDumps data)) sigBytes kid
  | _, _ => false

/-- The hex signature string that `sign_data(data, priv)` produces under
keypair `kid`. -/
def sigHexOf (data : PyDict) (kid : Nat) : String :=
  bytesHex (pkcsSign (sha256hex (jsonDumps data)) kid)

/-- The block stored at every position `i` of the chain has `index = i`. -/
def indexesContiguous (c : List Block) : Prop :=
  ∀ i : Fin c.length, (c.get i).index = i.val

/-- Ledger states reachable from a freshly constructed empty
`BlockchainModel()` by `create_genesis_block` and successful `add_block`
operations. -/
inductive ReachableState : BlockchainModel → Prop where
  | start (file : String) : ReachableState ⟨file, []⟩
  | genesis (s : BlockchainModel) (k : PyKey) (hs : ReachableState s)
      (hok : (s.create_genesis_block k).fst = .ok ()) :
      ReachableState (s.create_genesis_block k).snd
  | append (s : BlockchainModel) (d : PyDict) (k : PyKey) (hs : ReachableState s)
      (hok : (s.add_block d k).fst = .ok ()) :
      ReachableState (s.add_block d k).snd

/-- Data signature of the genesis payload under keypair 0 (concrete input). -/
def c4ds0 : String := sigHexOf genesisData 0

/-- A well-formed genesis block under keypair 0 (concrete input): its `hash`
is the correct digest of its own four fields. -/
def c4b0 : Block :=
  ⟨0, genesisData, "0", c4ds0, sha256hex (blockContent 0 genesisData "0" c4ds0), "feed"⟩

/-- Payload of the concrete block 1. -/
def c4d1 : PyDict := [("name", "Jack"), ("city", "New-York")]

/-- Data signature of `c4d1` under keypair 0 (concrete input). -/
def c4ds1 : String := sigHexOf c4d1 0

/-- A well-formed block 1 under keypair 0 (concrete input): correct own hash,
valid data signature, `prev_hash` linking to `c4b0`. -/
def c4b1 : Block :=
  ⟨1, c4d1, c4b0.hash, c4ds1, sha256hex (blockContent 1 c4d1 c4b0.hash c4ds1), "feed"⟩

/-- A two-block ledger whose blocks satisfy every invariant `is_chain_valid`
claims to check (concrete input). -/
def c4model : BlockchainModel := { chain := [c4b0, c4b1] }

/-- Concrete block for the determinism witness. -/
def c6blkA : Block := ⟨7, [("a", "b")], "p", "s", "h1", "hs1"⟩

/-- Same four hash-relevant fields as `c6blkA`, different `hash` and
`hash_signature`. -/
def c6blkB : Block := ⟨7, [("a", "b")], "p", "s", "h2", "hs2"⟩

/-- A one-block ledger used as a concrete `add_block` starting state. -/
def c7bm : BlockchainModel := { chain := [c4b0] }

/-- Concrete payload for the signature-correctness counterexample. -/
def c8data : PyDict := [("name", "Jack"), ("city", "New-York")]

/-- The signature `sign_data` produces for `c8data` under keypair 0. -/
def c8sig : String := sigHexOf c8data 0

/-- A successful-2xx-but-not-200 arbiter response with success status and a
complete token (concrete input). -/
def c9resp201 : HttpResponse := ⟨201, "Created", some 0, some "OK", some ⟨"sig", "ts"⟩⟩

/-- A non-2xx arbiter response (concrete input). -/
def c9resp404 : HttpResponse := ⟨404, "Not Found", none, none, none⟩

/-- Decoding the unary-key arm of the codec: consuming `k` marks starting from
accumulator `a` yields key `a + k` and the untouched digest. -/
theorem decSig_replicate (d : String) :
    ∀ k a : Nat, decSig (List.replicate k 'I' ++ ':' :: d.data) a
      = some (RawBytes.sig d (a + k))
  | 0, a => by
    rw [List.replicate_zero, List.nil_append]
    rfl
  | k + 1, a => by
    rw [List.replicate_succ, List.cons_append]
    have h1 : decSig ('I' :: (List.replicate k 'I' ++ ':' :: d.data)) a
        = decSig (List.replicate k 'I' ++ ':' :: d.data) (a + 1) := rfl
    rw [h1, decSig_replicate d k (a + 1)]
    have h2 : a + 1 + k = a + (k + 1) := by omega
    rw [h2]

/-- The byte/hex codec round-trips: `bytes.fromhex(b.hex())` recovers `b`. -/
theorem bytesFromHex_bytesHex (b : RawBytes) : bytesFromHex (bytesHex b) = some b := by
  cases b with
  | sig d k =>
    have h : bytesFromHex (bytesHex (RawBytes.sig d k))
        = decSig (List.replicate k 'I' ++ ':' :: d.data) 0 := rfl
    rw [h, decSig_replicate d k 0, Nat.zero_add]
  | junk s => rfl

/-- In this version of the code `Block.__init__` always raises: with a usable
private key the two-argument `sign_hash` call raises `TypeError`, and with an
unusable key `sign_data` already raises `ValueError`. -/
theorem Block.init_is_error (i : Nat) (d : PyDict) (p : String) (k : PyKey) :
    ∃ e, Block.init i d p k = .error e := by
  cases k with
  | rsa kid hasPrivate =>
    cases hasPrivate
    · exact ⟨.valueError signDataErrMsg, rfl⟩
    · exact ⟨.typeError arityErrMsg, rfl⟩
  | badKey => exact ⟨.valueError signDataErrMsg, rfl⟩

/-- `Block.__init__` never returns a block in this version of the code. -/
theorem Block.init_ne_ok (i : Nat) (d : PyDict) (p : String) (k : PyKey) (b : Block) :
    Block.init i d p k ≠ .ok b := by
  obtain ⟨e, he⟩ := Block.init_is_error i d p k
  rw [he]
  exact fun h => nomatch h

/-- `create_genesis_block` never reports success in this version of the code. -/
theorem create_genesis_fst_ne_ok (bm : BlockchainModel) (k : PyKey) :
    (bm.create_genesis_block k).fst ≠ .ok () := by
  obtain ⟨e, he⟩ := Block.init_is_error 0 genesisData "0" k
  simp [BlockchainModel.create_genesis_block, he]

/-- `add_block` never reports success in this version of the code. -/
theorem add_block_fst_ne_ok (bm : BlockchainModel) (d : PyDict) (k : PyKey) :
    (bm.add_block d k).fst ≠ .ok () := by
  cases hl : bm.chain.getLast? with
  | none => simp [BlockchainModel.add_block, hl]
  | some prev =>
    obtain ⟨e, he⟩ := Block.init_is_error bm.chain.length d prev.hash k
    simp [BlockchainModel.add_block, hl, he]

/-- Claim C1: the spec's end-to-end scenario A says that building the genesis
block plus three blocks with the literal payloads and then validating yields a
4-block chain with `isValid` true.  On this code the scenario instead crashes
at the very first block: `Block.__init__` calls `CryptoUtils.sign_hash(self.hash,
private_key)` with two arguments while `sign_hash` is declared with one, so
`create_genesis_block` raises `TypeError` and no chain is ever built. -/
theorem c1_scenarioA_crashes :
    scenarioA (.rsa 0 true) = .error (.typeError arityErrMsg) := rfl

/-- Claim C2: the spec says every constructed block carries the authority's
timestamp alongside `hashSignature`.  In this code block construction with any
usable private key always raises `TypeError` at the `sign_hash` call (and the
timestamp, when the intended one-argument flow is followed, is stored only in
the class-wide `CryptoUtils.TIMESTAMP`, never on the block), so no block
carrying a timestamp is ever produced. -/
theorem c2_block_construction_raises (i : Nat) (d : PyDict) (p : String) (kid : Nat) :
    Block.init i d p (.rsa kid true) = .error (.typeError arityErrMsg) := rfl

/-- Claim C3: `verify_data_signature` treats a cryptographic mismatch, a
malformed signature encoding and an unusable key uniformly: it returns `True`
exactly on a valid signature, and in every other case raises the one
deliberate, wrapped `ValueError` signal produced by its own
`except (ValueError, TypeError)` handler — never an unhandled library
exception and never `False`. -/
theorem c3_verify_data_signature_signals (data : PyDict) (signature : String)
    (public_key : PyKey) :
    (dataSigMatches data signature public_key = true →
      CryptoUtils.verify_data_signature data signature public_key = .ok true)
    ∧ (dataSigMatches data signature public_key = false →
      CryptoUtils.verify_data_signature data signature public_key
        = .error (.valueError verifyDataErrMsg)) := by
  unfold dataSigMatches CryptoUtils.verify_data_signature
  cases hb : bytesFromHex signature with
  | none => cases public_key <;> simp
  | some sb =>
    cases public_key with
    | rsa kid hp =>
      by_cases hv : pkcsVerify (sha256hex (jsonDumps data)) sb kid <;> simp [hv]
    | badKey => simp

/-- Witness for C3 at a concrete mismatching input. -/
theorem c3_witness :
    CryptoUtils.verify_data_signature [("a", "b")] "zz" (.rsa 0 true)
      = .error (.valueError verifyDataErrMsg) :=
  (c3_verify_data_signature_signals [("a", "b")] "zz" (.rsa 0 true)).2 (by decide)

/-- Claim C4: the spec says `is_chain_valid` always returns a boolean and
never aborts.  On this concrete two-block chain, whose block 1 has a correct
recomputed hash, a valid data signature under the author key, and a correct
link to block 0, validation instead raises `AttributeError`: after the first
two checks pass it reads `current_block.timestamp`, an attribute no block
has. -/
theorem c4_is_chain_valid_raises_on_wellformed_chain :
    (c4b1.hash = c4b1.calculate_hash
      ∧ CryptoUtils.verify_data_signature c4b1.data c4b1.data_signature (.rsa 0 true) = .ok true
      ∧ c4b1.prev_hash = c4b0.hash)
    ∧ c4model.is_chain_valid (.rsa 0 true) (.rsa 1 true)
      = .error (.attributeError timestampAttrMsg) := by decide

/-- Claim C5: for a chain holding only the genesis block the validation loop
`for i in range(1, len(chain))` never runs, so `is_chain_valid` returns `True`
whatever the genesis block's own hash and signatures are — block 0 is never
independently re-verified. -/
theorem c5_singleton_chain_always_valid (b : Block) (lk rk : PyKey) (file : String) :
    BlockchainModel.is_chain_valid ⟨file, [b]⟩ lk rk = .ok true := rfl

/-- Claim C6: `calculate_hash` is the SHA-256 hex digest of the concatenation
of the index, the Python text form of `data`, `prev_hash` and
`data_signature`, and it is a pure function of exactly those four fields: two
blocks agreeing on them (whatever their `hash` and `hash_signature` fields
hold) get identical recomputed hashes. -/
theorem c6_hash_pure_function_of_four_fields (b b2 : Block)
    (h1 : b.index = b2.index) (h2 : b.data = b2.data)
    (h3 : b.prev_hash = b2.prev_hash) (h4 : b.data_signature = b2.data_signature) :
    b.calculate_hash
      = sha256hex (toString b.index ++ pyStrDict b.data ++ b.prev_hash ++ b.data_signature)
    ∧ b.calculate_hash = b2.calculate_hash := by
  constructor
  · rfl
  · unfold Block.calculate_hash blockContent
    rw [h1, h2, h3, h4]

/-- Witness for C6 at two concrete blocks differing only in `hash` and
`hash_signature`. -/
theorem c6_witness :
    c6blkA.calculate_hash
      = sha256hex (toString c6blkA.index ++ pyStrDict c6blkA.data
        ++ c6blkA.prev_hash ++ c6blkA.data_signature)
    ∧ c6blkA.calculate_hash = c6blkB.calculate_hash :=
  c6_hash_pure_function_of_four_fields c6blkA c6blkB rfl rfl rfl rfl

/-- Claim C7: when `add_block` or `create_genesis_block` fails during block
construction (serialization, signing or the authority call all happen inside
`Block(...)`, before `self.chain.append`), the error propagates to the caller
and the in-memory chain is exactly what it was: no partially-formed block is
appended. -/
theorem c7_failed_append_leaves_chain_unchanged (bm : BlockchainModel) (d : PyDict)
    (k : PyKey) (e : PyErr) :
    ((bm.add_block d k).fst = .error e → (bm.add_block d k).snd = bm)
    ∧ ((bm.create_genesis_block k).fst = .error e → (bm.create_genesis_block k).snd = bm) := by
  constructor
  · cases hl : bm.chain.getLast? with
    | none => intro _; simp [BlockchainModel.add_block, hl]
    | some prev =>
      obtain ⟨e2, he⟩ := Block.init_is_error bm.chain.length d prev.hash k
      intro _; simp [BlockchainModel.add_block, hl, he]
  · obtain ⟨e2, he⟩ := Block.init_is_error 0 genesisData "0" k
    intro _; simp [BlockchainModel.create_genesis_block, he]

/-- Witness for C7 at a concrete one-block ledger whose `add_block` fails at
the `sign_hash` arity `TypeError`. -/
theorem c7_witness :
    (c7bm.add_block [("x", "y")] (.rsa 0 true)).snd = c7bm :=
  (c7_failed_append_leaves_chain_unchanged c7bm [("x", "y")] (.rsa 0 true)
    (.typeError arityErrMsg)).1 (by decide)

/-- Counterexample for C8: the claim says verification under a public key of a
different keypair "is false".  For this concrete payload signed under keypair
0 and verified under keypair 1 the code does not return `False`: it raises the
wrapped `ValueError`. -/
theorem c8_counterexample :
    CryptoUtils.sign_data c8data (.rsa 0 true) = .ok c8sig
    ∧ CryptoUtils.verify_data_signature c8data c8sig (.rsa 1 true) ≠ .ok false
    ∧ CryptoUtils.verify_data_signature c8data c8sig (.rsa 1 true)
      = .error (.valueError verifyDataErrMsg) := by decide

/-- Claim C8 as amended: `verifyDataSignature(data, signData(data, priv), pub)`
returns `True` when `pub` is from the signing keypair, and for a public key of
any other keypair the verification does not succeed — it raises the wrapped
`ValueError` verification-failure signal instead of returning `False`. -/
theorem c8_sign_verify_roundtrip (data : PyDict) (k k2 : Nat) (hp : Bool)
    (hne : k ≠ k2) :
    CryptoUtils.sign_data data (.rsa k true) = .ok (sigHexOf data k)
    ∧ CryptoUtils.verify_data_signature data (sigHexOf data k) (.rsa k true) = .ok true
    ∧ CryptoUtils.verify_data_signature data (sigHexOf data k) (.rsa k2 hp)
      = .error (.valueError verifyDataErrMsg) := by
  have hdec : bytesFromHex (sigHexOf data k)
      = some (RawBytes.sig (sha256hex (jsonDumps data)) k) :=
    bytesFromHex_bytesHex _
  refine ⟨rfl, ?_, ?_⟩
  · unfold CryptoUtils.verify_data_signature
    rw [hdec]
    simp [pkcsVerify]
  · unfold CryptoUtils.verify_data_signature
    rw [hdec]
    simp [pkcsVerify, hne]

/-- Witness for C8 (amended) at keypairs 0 and 1. -/
theorem c8_witness :
    CryptoUtils.sign_data c8data (.rsa 0 true) = .ok (sigHexOf c8data 0)
    ∧ CryptoUtils.verify_data_signature c8data (sigHexOf c8data 0) (.rsa 0 true) = .ok true
    ∧ CryptoUtils.verify_data_signature c8data (sigHexOf c8data 0) (.rsa 1 true)
      = .error (.valueError verifyDataErrMsg) :=
  c8_sign_verify_roundtrip c8data 0 1 true (by decide)

/-- Counterexample for C9: the claim says a successful (2xx) HTTP response
with `status == 0` yields the token.  This concrete `201` response carries
`status = 0` and a complete token, yet `get_signature` raises the HTTP-status
`ValueError` because the code accepts only status code exactly `200`. -/
theorem c9_counterexample :
    (200 ≤ c9resp201.status_code ∧ c9resp201.status_code ≤ 299)
    ∧ c9resp201.status = some 0
    ∧ c9resp201.timeStampToken = some ⟨"sig", "ts"⟩
    ∧ ArbiterAPI.get_signature c9resp201
      = .error (.valueError "Ошибка при получении подписи: 201, Created") := by decide

/-- Claim C9 as amended: `get_signature` returns the `{signature, ts}` token
exactly when the HTTP status code is exactly 200 and the body's `status` is 0;
a non-200 HTTP status (2xx codes included) raises `ValueError` carrying the
status code and body text; a 200 response whose `status` is non-zero or absent
raises `ValueError` carrying the `statusString` (default text when absent) —
the two failures share the exception type and differ only in message; a
success-status response with no `timeStampToken` field raises `KeyError`. -/
theorem c9_get_signature_spec (r : HttpResponse) (t : TimeStampToken) :
    (ArbiterAPI.get_signature r = .ok t
      ↔ r.status_code = 200 ∧ r.status = some 0 ∧ r.timeStampToken = some t)
    ∧ (r.status_code ≠ 200 →
      ArbiterAPI.get_signature r = .error (.valueError (httpFailMsg r)))
    ∧ (r.status_code = 200 → r.status ≠ some 0 →
      ArbiterAPI.get_signature r = .error (.valueError (protoFailMsg r)))
    ∧ (r.status_code = 200 → r.status = some 0 → r.timeStampToken = none →
      ArbiterAPI.get_signature r = .error (.keyError "timeStampToken")) := by
  by_cases h1 : r.status_code = 200
  · by_cases h2 : r.status = some 0
    · cases h3 : r.timeStampToken with
      | none => simp [ArbiterAPI.get_signature, h1, h2, h3]
      | some tk => simp [ArbiterAPI.get_signature, h1, h2, h3, eq_comm]
    · simp [ArbiterAPI.get_signature, h1, h2]
  · simp [ArbiterAPI.get_signature, h1]

/-- Witness for C9 (amended) at the concrete 404 response. -/
theorem c9_witness :
    ArbiterAPI.get_signature c9resp404 = .error (.valueError (httpFailMsg c9resp404)) :=
  (c9_get_signature_spec c9resp404 ⟨"", ""⟩).2.1 (by decide)

/-- Claim C10: in every ledger state reachable from an empty ledger by
`create_genesis_block` and successful `add_block` calls, the block at position
`i` has `index = i` — each constructor receives `len(self.chain)` (0 for the
genesis) as its index.  In this version of the code block construction always
raises, so the empty chain is in fact the only reachable state and the
invariant holds there. -/
theorem c10_reachable_chain_indexes_contiguous (s : BlockchainModel)
    (h : ReachableState s) : indexesContiguous s.chain := by
  induction h with
  | start file => exact fun i => nomatch i
  | genesis s k hs hok => exact absurd hok (create_genesis_fst_ne_ok s k)
  | append s d k hs hok => exact absurd hok (add_block_fst_ne_ok s d k)

/-- Witness for C10 at the freshly constructed empty ledger. -/
theorem c10_witness :
    indexesContiguous (BlockchainModel.mk "data/blockchains/blockchain.json" []).chain :=
  c10_reachable_chain_indexes_contiguous _
    (ReachableState.start "data/blockchains/blockchain.json")
